import Mathlib

/-!
The package `splunklogger`: a shallow embedding of `logger.go`.

The Go package `splunklogger` formats a log record, wraps it in an envelope,
serialises it to JSON and posts it to a Splunk HTTP Event Collector.

Everything the package itself computes is translated function by function.
The Go standard library and `stackerr` are not part of the package; what the
package asks of them is collected in the structure `Env` (the clock, the JSON
rendering of a time, whether `http.NewRequest` accepts its arguments, the
answer of `client.Do`, and the rendered call stack of an error value).  The
effects of a call (requests built, requests handed to the HTTP client,
responses received, bodies read, text written to standard output) are returned
explicitly as a value of type `Effects`.

Go strings are modelled by `String`, Go `int` by `Int` (the package performs no
arithmetic on integers, it only compares and prints them).
-/

namespace Splunklogger

/-! ## The parts of `fmt` the package uses -/

/-- Decimal rendering of an integer, as the verb `%d` produces it: a minus sign
for negative numbers, then the digits. -/
def fmtInt (n : Int) : String :=
  if n < 0 then "-" ++ Nat.repr n.natAbs else Nat.repr n.toNat

/-- Operand of `fmt.Sprintf`: the package passes strings (to `%s`) and
integers (to `%d`). -/
inductive Arg where
  | s (v : String)
  | d (v : Int)

/-- Scanner of `fmt.Sprintf` for the verbs the package uses, on the characters
of the format.  A verb `%s` consumes a string operand and `%d` an integer
operand, each inserted as is; every other character of the format is copied.
(Go renders a verb whose operand is missing or of the other kind as a `%!`
diagnostic; no call in the package does that, and here such a verb is copied.) -/
def sprintfAux : List Char → List Arg → List Char
  | [], _ => []
  | '%' :: 's' :: rest, Arg.s v :: args => v.toList ++ sprintfAux rest args
  | '%' :: 'd' :: rest, Arg.d v :: args => (fmtInt v).toList ++ sprintfAux rest args
  | c :: rest, args => c :: sprintfAux rest args

/-- The function `fmt.Sprintf`, restricted to `%s` and `%d`. -/
def Sprintf (format : String) (args : List Arg) : String :=
  String.mk (sprintfAux format.toList args)

/-- The text `fmt.Println` writes for one string operand: the operand and a
newline. -/
def Println (s : String) : String :=
  s ++ "\n"

/-! ## Data model (`logger.go`, lines 14-58) -/

/-- Configuration of the emitter (`type SplunkLogger struct`). -/
structure SplunkLogger where
  splunkTokenValue : String
  splunkEndpoint : String
  splunkPort : Int

/-- Severity (`type LogLevel int`). -/
abbrev LogLevel := Int

/-- Constant `DEBUG` (`iota` = 1; the value 0 is skipped by the blank identifier). -/
def DEBUG : LogLevel := 1
/-- Constant `INFORMATION`. -/
def INFORMATION : LogLevel := 2
/-- Constant `WARNING`. -/
def WARNING : LogLevel := 3
/-- Constant `ERROR`. -/
def ERROR : LogLevel := 4
/-- Constant `FATAL`. -/
def FATAL : LogLevel := 5

/-- The `switch` of `logLevelToString`, case by case, with its `default`. -/
def logLevelToString (logLevel : LogLevel) : String :=
  if logLevel = DEBUG then "debug"
  else if logLevel = INFORMATION then "information"
  else if logLevel = WARNING then "warning"
  else if logLevel = ERROR then "error"
  else if logLevel = FATAL then "fatal"
  else "Not Set"

/-- A value of `time.Time`, kept abstract (an instant number); its rendering
belongs to `Env`. -/
abbrev Time := Int

/-- One log record (`type LogMessage struct`). -/
structure LogMessage where
  Message : String
  StackTrace : String
  LogLevel : LogLevel
  LogLevelDescription : String
  EventTime : Time

/-- The envelope (`type wrapper struct`). -/
structure wrapper where
  Event : LogMessage

/-! ## JSON values and the struct tags of `LogMessage` and `wrapper` -/

/-- JSON values, as far as the package produces them: strings, integers and
objects with their fields in order. -/
inductive Json where
  | str (s : String)
  | num (n : Int)
  | obj (fields : List (String × Json))

/-- Field names of a JSON object in order (none for a string or a number). -/
def Json.keys : Json → List String
  | Json.obj fields => fields.map Prod.fst
  | _ => []

/-- A struct field tagged `omitempty`: left out when its value is the empty
value of its type, written otherwise. -/
def omitempty (name : String) (isEmpty : Bool) (value : Json) : List (String × Json) :=
  if isEmpty then [] else [(name, value)]

/-- A non-nil Go `error` value, given by the text its `Error()` method returns. -/
structure GoError where
  Error : String

/-- An HTTP header map (`http.Header`): keys with their lists of values.  Keys
are stored as given: the two keys the package uses, `Authorization` and
`Content-Type`, are already in canonical MIME form. -/
structure Header where
  entries : List (String × List String)

/-- All values stored under a key (`Header.Values`). -/
def Header.Values (h : Header) (key : String) : List String :=
  match h.entries.find? (fun e => e.1 == key) with
  | some e => e.2
  | none => []

/-- First value stored under a key, or the empty string (`Header.Get`). -/
def Header.Get (h : Header) (key : String) : String :=
  (h.Values key).headD ""

/-- Appends a value to those of a key (`Header.Add`). -/
def Header.Add (h : Header) (key value : String) : Header :=
  if h.entries.any (fun e => e.1 == key) then
    { entries := h.entries.map (fun e => if e.1 == key then (e.1, e.2 ++ [value]) else e) }
  else
    { entries := h.entries ++ [(key, [value])] }

/-- Replaces the values of a key by one value (`Header.Set`). -/
def Header.Set (h : Header) (key value : String) : Header :=
  if h.entries.any (fun e => e.1 == key) then
    { entries := h.entries.map (fun e => if e.1 == key then (e.1, [value]) else e) }
  else
    { entries := h.entries ++ [(key, [value])] }

/-- An outgoing request (`http.Request`): method, the URL text it was built
from, headers and body. -/
structure Request where
  Method : String
  URL : String
  Header : Header
  Body : Json

/-- A response (`http.Response`): status code, and the bytes `io.ReadAll`
yields from its body (the read error is dropped by the package). -/
structure Response where
  StatusCode : Int
  Body : String

/-- What the package asks of the world outside it. -/
structure Env where
  /-- Result of `time.Now()`. -/
  now : Time
  /-- Result of `Time.MarshalJSON`: the RFC 3339 text, or `none` when it
  returns an error (a year outside 0..9999). -/
  timeMarshalJSON : Time → Option String
  /-- Whether `http.NewRequest` accepts this method and URL. -/
  requestOk : String → String → Bool
  /-- Result of `client.Do`: the response, or `none` on a transport error
  (which includes the 10 second timeout of the client). -/
  Do : Request → Option Response
  /-- Result of `stackerr.NewFromError(err).Stack().Sprint()`. -/
  stackSprint : GoError → String

/-- Observable effects of one run of the send step. -/
structure Effects where
  /-- Requests `http.NewRequest` returned. -/
  built : List Request
  /-- Requests handed to `client.Do`. -/
  sent : List Request
  /-- Responses `client.Do` returned. -/
  responses : List Response
  /-- Bodies read with `io.ReadAll`. -/
  reads : List String
  /-- Text written to standard output. -/
  stdout : List String

/-- No effect at all. -/
def Effects.nothing : Effects :=
  { built := [], sent := [], responses := [], reads := [], stdout := [] }

/-- Encoding of a `LogMessage` by `json.Marshal`, following its struct tags:
`message` and `event_time` always, the three `omitempty` fields when not
empty (a string of length 0, the integer 0).  It fails exactly when the time
fails to marshal. -/
def marshalLogMessage (env : Env) (lm : LogMessage) : Option Json :=
  match env.timeMarshalJSON lm.EventTime with
  | none => none
  | some t =>
    some (Json.obj (
      [("message", Json.str lm.Message)]
      ++ omitempty "stack_trace" (lm.StackTrace.length == 0) (Json.str lm.StackTrace)
      ++ omitempty "log_level" (lm.LogLevel == 0) (Json.num lm.LogLevel)
      ++ omitempty "log_level_description" (lm.LogLevelDescription.length == 0)
          (Json.str lm.LogLevelDescription)
      ++ [("event_time", Json.str t)]))

/-- Encoding of the envelope by `json.Marshal`: one field, `event`. -/
def jsonMarshal (env : Env) (payload : wrapper) : Option Json :=
  match marshalLogMessage env payload.Event with
  | none => none
  | some event => some (Json.obj [("event", event)])

/-- The function `http.NewRequest`: a request with the given method, URL and
body and no header yet, or `none` when the arguments are rejected. -/
def NewRequest (env : Env) (method url : String) (body : Json) : Option Request :=
  if env.requestOk method url then
    some { Method := method, URL := url, Header := { entries := [] }, Body := body }
  else
    none

/-! ## Operations (`logger.go`, lines 60-157) -/

/-- Constructor `NewSplunkLogger`. -/
def NewSplunkLogger (splunkToken splunkEndpoint : String) (splunkPort : Int) : SplunkLogger :=
  { splunkTokenValue := splunkToken
    splunkEndpoint := splunkEndpoint
    splunkPort := splunkPort }

/-- The send step `logToSplunk`, statement by statement.  It has no result in
Go; here it returns the effects it had. -/
def logToSplunk (env : Env) (sp : SplunkLogger) (lm : LogMessage) : Effects :=
  let url := Sprintf "%s:%d/services/collector/event" [Arg.s sp.splunkEndpoint, Arg.d sp.splunkPort]
  let payload : wrapper := { Event := lm }
  match jsonMarshal env payload with
  | none => Effects.nothing
  | some payloadJson =>
    match NewRequest env "POST" url payloadJson with
    | none => Effects.nothing
    | some request0 =>
      let request1 : Request :=
        { request0 with
          Header := request0.Header.Add "Authorization" (Sprintf "Splunk %s" [Arg.s sp.splunkTokenValue]) }
      let request : Request :=
        { request1 with Header := request1.Header.Set "Content-Type" "application/json" }
      match env.Do request with
      | none =>
        { built := [request], sent := [request], responses := [], reads := [], stdout := [] }
      | some response =>
        if response.StatusCode < 200 ∨ response.StatusCode ≥ 299 then
          let body := response.Body
          { built := [request], sent := [request], responses := [response],
            reads := [body], stdout := [Println body] }
        else
          { built := [request], sent := [request], responses := [response],
            reads := [], stdout := [] }

/-- The operation `LogDebug`: the record it builds and the effects of handing it
to the send step. -/
def LogDebug (env : Env) (sp : SplunkLogger) (message source_filename : String) (lineNo : Int) :
    LogMessage × Effects :=
  let lm : LogMessage :=
    { Message := message
      StackTrace := Sprintf "Debug Stacktrace:\n-> %s"
        [Arg.s (Sprintf "%s:%d" [Arg.s source_filename, Arg.d lineNo])]
      LogLevel := DEBUG
      LogLevelDescription := logLevelToString DEBUG
      EventTime := env.now }
  (lm, logToSplunk env sp lm)

/-- The operation `LogInformation`. -/
def LogInformation (env : Env) (sp : SplunkLogger) (message source_filename : String)
    (lineNo : Int) : LogMessage × Effects :=
  let lm : LogMessage :=
    { Message := message
      StackTrace := Sprintf "Information Stacktrace:\n-> %s"
        [Arg.s (Sprintf "%s:%d" [Arg.s source_filename, Arg.d lineNo])]
      LogLevel := INFORMATION
      LogLevelDescription := logLevelToString INFORMATION
      EventTime := env.now }
  (lm, logToSplunk env sp lm)

/-- The operation `LogWarning`. -/
def LogWarning (env : Env) (sp : SplunkLogger) (message source_filename : String)
    (lineNo : Int) : LogMessage × Effects :=
  let lm : LogMessage :=
    { Message := message
      StackTrace := Sprintf "Warning Stacktrace:\n-> %s"
        [Arg.s (Sprintf "%s:%d" [Arg.s source_filename, Arg.d lineNo])]
      LogLevel := WARNING
      LogLevelDescription := logLevelToString WARNING
      EventTime := env.now }
  (lm, logToSplunk env sp lm)

/-- A run-time panic of the Go program. -/
inductive Panic where
  /-- Method call on a nil interface value (nil pointer dereference). -/
  | nilDereference
  deriving DecidableEq

/-- The operation `LogError`.  The argument is `none` for the nil `error`.  On
nil, the call `err.Error()` of line 138 is a method call on a nil interface
value, which panics (and nothing before it can make the operation return); no
record is built. -/
def LogError (env : Env) (sp : SplunkLogger) (err : Option GoError) :
    Except Panic (LogMessage × Effects) :=
  match err with
  | none => Except.error Panic.nilDereference
  | some e =>
    let lm : LogMessage :=
      { Message := e.Error
        StackTrace := env.stackSprint e
        LogLevel := ERROR
        LogLevelDescription := logLevelToString ERROR
        EventTime := env.now }
    Except.ok (lm, logToSplunk env sp lm)

/-- The operation `LogFatal`, as `LogError` with the level `FATAL` (line 150 is
the panicking call on nil). -/
def LogFatal (env : Env) (sp : SplunkLogger) (err : Option GoError) :
    Except Panic (LogMessage × Effects) :=
  match err with
  | none => Except.error Panic.nilDereference
  | some e =>
    let lm : LogMessage :=
      { Message := e.Error
        StackTrace := env.stackSprint e
        LogLevel := FATAL
        LogLevelDescription := logLevelToString FATAL
        EventTime := env.now }
    Except.ok (lm, logToSplunk env sp lm)

/-! ## The request of the send step, in closed form (used to state facts about it) -/

/-- The request `logToSplunk` passes to `client.Do` for a serialised body. -/
def finalRequest (sp : SplunkLogger) (body : Json) : Request :=
  { Method := "POST"
    URL := sp.splunkEndpoint ++ ":" ++ fmtInt sp.splunkPort ++ "/services/collector/event"
    Header := { entries := [("Authorization", ["Splunk " ++ sp.splunkTokenValue]),
                            ("Content-Type", ["application/json"])] }
    Body := body }

/-! ## A concrete collector, for evaluating the operations -/

/-- The first check of Go's `url.Parse`: an ASCII control byte (below 0x20, or
0x7f) makes the URL invalid. -/
def stringContainsCTLByte (s : String) : Bool :=
  s.toList.any (fun c => decide (c.toNat < 32) || decide (c.toNat = 127))

/-- A concrete world: the clock reads instant 0, rendered as the first second of
2024; `http.NewRequest` rejects a URL with a control byte; the collector
answers every request with the given status and body; the rendered stack of an
error is a fixed two-line text. -/
def collector (status : Int) (body : String) : Env :=
  { now := 0
    timeMarshalJSON := fun _ => some "2024-01-01T00:00:00Z"
    requestOk := fun _ url => !stringContainsCTLByte url
    Do := fun _ => some { StatusCode := status, Body := body }
    stackSprint := fun _ => "main.main\n\tmain.go:10" }

/-- A concrete world whose collector cannot be reached: `client.Do` fails. -/
def offline : Env :=
  { now := 0
    timeMarshalJSON := fun _ => some "2024-01-01T00:00:00Z"
    requestOk := fun _ url => !stringContainsCTLByte url
    Do := fun _ => none
    stackSprint := fun _ => "main.main\n\tmain.go:10" }

/-- A concrete world whose clock reads a time that does not marshal. -/
def badClock : Env :=
  { now := 0
    timeMarshalJSON := fun _ => none
    requestOk := fun _ url => !stringContainsCTLByte url
    Do := fun _ => some { StatusCode := 200, Body := "" }
    stackSprint := fun _ => "main.main\n\tmain.go:10" }

/-- A sample record. -/
def sampleRecord : LogMessage :=
  { Message := "m"
    StackTrace := "Debug Stacktrace:\n-> f.go:42"
    LogLevel := DEBUG
    LogLevelDescription := "debug"
    EventTime := 0 }

/-- A sample emitter. -/
def sampleLogger : SplunkLogger :=
  NewSplunkLogger "secret" "http://splunk.local" 8088

/-- The envelope of `sampleRecord` as JSON, with the time of `collector`. -/
def sampleBody : Json :=
  Json.obj [("event", Json.obj
    [("message", Json.str "m"),
     ("stack_trace", Json.str "Debug Stacktrace:\n-> f.go:42"),
     ("log_level", Json.num 1),
     ("log_level_description", Json.str "debug"),
     ("event_time", Json.str "2024-01-01T00:00:00Z")])]

/-- The request `sampleLogger` sends for `sampleRecord`. -/
def sampleRequest : Request :=
  { Method := "POST"
    URL := "http://splunk.local:8088/services/collector/event"
    Header := { entries := [("Authorization", ["Splunk secret"]),
                            ("Content-Type", ["application/json"])] }
    Body := sampleBody }

/-! ## Auxiliary facts: the formats of the package, evaluated -/

/-- The URL format of line 69. -/
theorem sprintf_url (endpoint : String) (port : Int) :
    Sprintf "%s:%d/services/collector/event" [Arg.s endpoint, Arg.d port]
      = endpoint ++ ":" ++ fmtInt port ++ "/services/collector/event" := by
  apply String.ext
  simp only [String.data_append, List.append_assoc]
  rfl

/-- The header format of line 86. -/
theorem sprintf_token (token : String) :
    Sprintf "Splunk %s" [Arg.s token] = "Splunk " ++ token := by
  apply String.ext
  have h : (Sprintf "Splunk %s" [Arg.s token]).data
      = "Splunk ".data ++ (token.data ++ []) := rfl
  rw [h, List.append_nil]
  rfl

/-- The source position format of lines 105, 116 and 127. -/
theorem sprintf_position (file : String) (line : Int) :
    Sprintf "%s:%d" [Arg.s file, Arg.d line] = file ++ ":" ++ fmtInt line := by
  apply String.ext
  have h : (Sprintf "%s:%d" [Arg.s file, Arg.d line]).data
      = file.data ++ (':' :: ((fmtInt line).data ++ [])) := rfl
  rw [h, List.append_nil]
  simp only [String.data_append, List.append_assoc]
  rfl

/-- The stack trace format of line 105. -/
theorem sprintf_debug (v : String) :
    Sprintf "Debug Stacktrace:\n-> %s" [Arg.s v] = "Debug Stacktrace:\n-> " ++ v := by
  apply String.ext
  have h : (Sprintf "Debug Stacktrace:\n-> %s" [Arg.s v]).data
      = "Debug Stacktrace:\n-> ".data ++ (v.data ++ []) := rfl
  rw [h, List.append_nil]
  rfl

/-- The stack trace format of line 116. -/
theorem sprintf_information (v : String) :
    Sprintf "Information Stacktrace:\n-> %s" [Arg.s v] = "Information Stacktrace:\n-> " ++ v := by
  apply String.ext
  have h : (Sprintf "Information Stacktrace:\n-> %s" [Arg.s v]).data
      = "Information Stacktrace:\n-> ".data ++ (v.data ++ []) := rfl
  rw [h, List.append_nil]
  rfl

/-- The stack trace format of line 127. -/
theorem sprintf_warning (v : String) :
    Sprintf "Warning Stacktrace:\n-> %s" [Arg.s v] = "Warning Stacktrace:\n-> " ++ v := by
  apply String.ext
  have h : (Sprintf "Warning Stacktrace:\n-> %s" [Arg.s v]).data
      = "Warning Stacktrace:\n-> ".data ++ (v.data ++ []) := rfl
  rw [h, List.append_nil]
  rfl

/-! ## Auxiliary facts about the send step -/

/-- The header map after lines 86 and 87. -/
theorem header_after_add_set (v : String) :
    (({ entries := [] } : Header).Add "Authorization" v).Set "Content-Type" "application/json"
      = { entries := [("Authorization", [v]), ("Content-Type", ["application/json"])] } := rfl

/-- The send step, with its formats and header updates evaluated. -/
theorem logToSplunk_eq (env : Env) (sp : SplunkLogger) (lm : LogMessage) :
    logToSplunk env sp lm =
      match jsonMarshal env { Event := lm } with
      | none => Effects.nothing
      | some payloadJson =>
        if env.requestOk "POST"
            (sp.splunkEndpoint ++ ":" ++ fmtInt sp.splunkPort ++ "/services/collector/event") then
          match env.Do (finalRequest sp payloadJson) with
          | none =>
            { built := [finalRequest sp payloadJson], sent := [finalRequest sp payloadJson],
              responses := [], reads := [], stdout := [] }
          | some response =>
            if response.StatusCode < 200 ∨ response.StatusCode ≥ 299 then
              { built := [finalRequest sp payloadJson], sent := [finalRequest sp payloadJson],
                responses := [response], reads := [response.Body],
                stdout := [response.Body ++ "\n"] }
            else
              { built := [finalRequest sp payloadJson], sent := [finalRequest sp payloadJson],
                responses := [response], reads := [], stdout := [] }
        else Effects.nothing := by
  unfold logToSplunk NewRequest
  simp only [sprintf_url, sprintf_token]
  cases jsonMarshal env { Event := lm } with
  | none => rfl
  | some payloadJson =>
    simp only []
    by_cases hok : env.requestOk "POST"
        (sp.splunkEndpoint ++ ":" ++ fmtInt sp.splunkPort ++ "/services/collector/event") = true
    · simp only [hok, if_true, header_after_add_set]
      rfl
    · simp only [hok]
      rfl

/-- A string has length 0 exactly when it is the empty string. -/
theorem length_beq_zero (v : String) : (v.length == 0) = true ↔ v = "" := by
  rw [beq_iff_eq]
  constructor
  · intro h
    apply String.ext
    exact List.length_eq_zero.mp h
  · intro h
    rw [h]
    rfl

/-! ## Theorems -/

/-- C1: every request `logToSplunk` builds or sends for an emitter made by
`NewSplunkLogger token endpoint port` has the URL
`endpoint ++ ":" ++ decimal port ++ "/services/collector/event"`, the method
`POST`, and under `Authorization` the single value `"Splunk " ++ token`, with
token and endpoint inserted as they are. -/
theorem request_target_method_authorization (env : Env) (token endpoint : String) (port : Int)
    (lm : LogMessage) (r : Request)
    (h : r ∈ (logToSplunk env (NewSplunkLogger token endpoint port) lm).built
      ∨ r ∈ (logToSplunk env (NewSplunkLogger token endpoint port) lm).sent) :
    r.URL = endpoint ++ ":" ++ fmtInt port ++ "/services/collector/event"
    ∧ r.Method = "POST"
    ∧ r.Header.Values "Authorization" = ["Splunk " ++ token]
    ∧ r.Header.Get "Authorization" = "Splunk " ++ token := by
  rw [logToSplunk_eq] at h
  have key : ∀ body, r = finalRequest (NewSplunkLogger token endpoint port) body →
      r.URL = endpoint ++ ":" ++ fmtInt port ++ "/services/collector/event"
      ∧ r.Method = "POST"
      ∧ r.Header.Values "Authorization" = ["Splunk " ++ token]
      ∧ r.Header.Get "Authorization" = "Splunk " ++ token := by
    intro body hr
    rw [hr]
    exact ⟨rfl, rfl, rfl, rfl⟩
  split at h
  · simp [Effects.nothing] at h
  · rename_i payloadJson _
    split at h
    · split at h
      · simp only [List.mem_singleton, or_self] at h
        exact key _ h
      · split at h <;>
        · simp only [List.mem_singleton, or_self] at h
          exact key _ h
    · simp [Effects.nothing] at h

/-- Witness of C1: the emitter for `http://splunk.local`, port 8088 and token
`secret` sends its request to
`http://splunk.local:8088/services/collector/event` with `Splunk secret`. -/
theorem request_target_method_authorization_witness :
    sampleRequest ∈ (logToSplunk (collector 200 "ok")
        (NewSplunkLogger "secret" "http://splunk.local" 8088) sampleRecord).sent
    ∧ sampleRequest.URL = "http://splunk.local:8088/services/collector/event"
    ∧ sampleRequest.Method = "POST"
    ∧ sampleRequest.Header.Values "Authorization" = ["Splunk secret"]
    ∧ sampleRequest.Header.Get "Authorization" = "Splunk secret" :=
  ⟨List.mem_singleton.mpr rfl,
    request_target_method_authorization (collector 200 "ok") "secret" "http://splunk.local" 8088
      sampleRecord sampleRequest (Or.inr (List.mem_singleton.mpr rfl))⟩

/-- C2: the records of `LogDebug`, `LogInformation`, `LogWarning`, `LogError`
and `LogFatal` carry the levels 1, 2, 3, 4, 5 and the labels `debug`,
`information`, `warning`, `error`, `fatal`; in each of them the label is
`logLevelToString` of the level.  (`LogError` and `LogFatal` build a record for
every non-nil error; for nil they build none.) -/
theorem level_and_label_fixed (env : Env) (sp : SplunkLogger) (message source_filename : String)
    (lineNo : Int) (e : GoError) :
    ((LogDebug env sp message source_filename lineNo).1.LogLevel = 1
      ∧ (LogDebug env sp message source_filename lineNo).1.LogLevelDescription = "debug"
      ∧ (LogDebug env sp message source_filename lineNo).1.LogLevelDescription
          = logLevelToString (LogDebug env sp message source_filename lineNo).1.LogLevel)
    ∧ ((LogInformation env sp message source_filename lineNo).1.LogLevel = 2
      ∧ (LogInformation env sp message source_filename lineNo).1.LogLevelDescription = "information"
      ∧ (LogInformation env sp message source_filename lineNo).1.LogLevelDescription
          = logLevelToString (LogInformation env sp message source_filename lineNo).1.LogLevel)
    ∧ ((LogWarning env sp message source_filename lineNo).1.LogLevel = 3
      ∧ (LogWarning env sp message source_filename lineNo).1.LogLevelDescription = "warning"
      ∧ (LogWarning env sp message source_filename lineNo).1.LogLevelDescription
          = logLevelToString (LogWarning env sp message source_filename lineNo).1.LogLevel)
    ∧ (∃ lm fx, LogError env sp (some e) = Except.ok (lm, fx)
      ∧ lm.LogLevel = 4 ∧ lm.LogLevelDescription = "error"
      ∧ lm.LogLevelDescription = logLevelToString lm.LogLevel)
    ∧ (∃ lm fx, LogFatal env sp (some e) = Except.ok (lm, fx)
      ∧ lm.LogLevel = 5 ∧ lm.LogLevelDescription = "fatal"
      ∧ lm.LogLevelDescription = logLevelToString lm.LogLevel) :=
  ⟨⟨rfl, rfl, rfl⟩, ⟨rfl, rfl, rfl⟩, ⟨rfl, rfl, rfl⟩,
    ⟨_, _, rfl, rfl, rfl, rfl⟩, ⟨_, _, rfl, rfl, rfl, rfl⟩⟩

/-- C3: the records of `LogDebug`, `LogInformation` and `LogWarning` carry the
message of the caller unchanged and the stack trace
`S ++ " Stacktrace:\n-> " ++ file ++ ":" ++ decimal line` with `S` equal to
`Debug`, `Information`, `Warning`; for message `m`, file `f.go` and line 42 the
stack trace of `LogDebug` is `"Debug Stacktrace:\n-> f.go:42"`. -/
theorem message_and_synthesized_trace (env : Env) (sp : SplunkLogger)
    (message source_filename : String) (lineNo : Int) :
    ((LogDebug env sp message source_filename lineNo).1.Message = message
      ∧ (LogDebug env sp message source_filename lineNo).1.StackTrace
          = "Debug" ++ " Stacktrace:\n-> " ++ source_filename ++ ":" ++ fmtInt lineNo)
    ∧ ((LogInformation env sp message source_filename lineNo).1.Message = message
      ∧ (LogInformation env sp message source_filename lineNo).1.StackTrace
          = "Information" ++ " Stacktrace:\n-> " ++ source_filename ++ ":" ++ fmtInt lineNo)
    ∧ ((LogWarning env sp message source_filename lineNo).1.Message = message
      ∧ (LogWarning env sp message source_filename lineNo).1.StackTrace
          = "Warning" ++ " Stacktrace:\n-> " ++ source_filename ++ ":" ++ fmtInt lineNo)
    ∧ ((LogDebug env sp "m" "f.go" 42).1.Message = "m"
      ∧ (LogDebug env sp "m" "f.go" 42).1.StackTrace = "Debug Stacktrace:\n-> f.go:42") := by
  refine ⟨⟨rfl, ?_⟩, ⟨rfl, ?_⟩, ⟨rfl, ?_⟩, ⟨rfl, rfl⟩⟩
  · show Sprintf "Debug Stacktrace:\n-> %s" [Arg.s (Sprintf "%s:%d" [Arg.s source_filename, Arg.d lineNo])] = _
    rw [sprintf_debug, sprintf_position]
    simp only [String.append_assoc]
    rfl
  · show Sprintf "Information Stacktrace:\n-> %s" [Arg.s (Sprintf "%s:%d" [Arg.s source_filename, Arg.d lineNo])] = _
    rw [sprintf_information, sprintf_position]
    simp only [String.append_assoc]
    rfl
  · show Sprintf "Warning Stacktrace:\n-> %s" [Arg.s (Sprintf "%s:%d" [Arg.s source_filename, Arg.d lineNo])] = _
    rw [sprintf_warning, sprintf_position]
    simp only [String.append_assoc]
    rfl

/-- C4: when the time of a record marshals (the only way its serialisation can
fail), the body `logToSplunk` serialises is an object with the single field
`event`, whose value is an object that has `message` and `event_time`, has
`stack_trace` exactly when the stack trace is not empty, `log_level` exactly
when the level is not 0, `log_level_description` exactly when the label is not
empty, and has no other field and no field twice; when `http.NewRequest`
accepts the URL, `logToSplunk` builds exactly one request, hands exactly that
request to the HTTP client, and its body is this object; and no request built
carries any other body. -/
theorem envelope_shape (env : Env) (sp : SplunkLogger) (lm : LogMessage) (t : String)
    (ht : env.timeMarshalJSON lm.EventTime = some t) :
    ∃ event : List (String × Json),
      jsonMarshal env { Event := lm } = some (Json.obj [("event", Json.obj event)])
      ∧ (Json.obj [("event", Json.obj event)]).keys = ["event"]
      ∧ (env.requestOk "POST"
            (Sprintf "%s:%d/services/collector/event"
              [Arg.s sp.splunkEndpoint, Arg.d sp.splunkPort]) = true →
          ∃ r : Request, (logToSplunk env sp lm).built = [r]
            ∧ (logToSplunk env sp lm).sent = [r]
            ∧ r.Body = Json.obj [("event", Json.obj event)])
      ∧ (∀ r ∈ (logToSplunk env sp lm).built, r.Body = Json.obj [("event", Json.obj event)])
      ∧ "message" ∈ (Json.obj event).keys
      ∧ "event_time" ∈ (Json.obj event).keys
      ∧ ("stack_trace" ∈ (Json.obj event).keys ↔ lm.StackTrace ≠ "")
      ∧ ("log_level" ∈ (Json.obj event).keys ↔ lm.LogLevel ≠ 0)
      ∧ ("log_level_description" ∈ (Json.obj event).keys ↔ lm.LogLevelDescription ≠ "")
      ∧ (∀ k ∈ (Json.obj event).keys,
          k ∈ ["message", "stack_trace", "log_level", "log_level_description", "event_time"])
      ∧ ((Json.obj event).keys).Nodup := by
  have hm : jsonMarshal env { Event := lm } = some (Json.obj [("event", Json.obj (
      [("message", Json.str lm.Message)]
      ++ omitempty "stack_trace" (lm.StackTrace.length == 0) (Json.str lm.StackTrace)
      ++ omitempty "log_level" (lm.LogLevel == 0) (Json.num lm.LogLevel)
      ++ omitempty "log_level_description" (lm.LogLevelDescription.length == 0)
          (Json.str lm.LogLevelDescription)
      ++ [("event_time", Json.str t)]))]) := by
    simp only [jsonMarshal, marshalLogMessage, ht]
  refine ⟨_, hm, rfl, ?_, ?_, ?_⟩
  · intro hok
    rw [sprintf_url] at hok
    refine ⟨finalRequest sp _, ?_, ?_, rfl⟩
    · rw [logToSplunk_eq, hm]
      simp only [hok, if_true]
      split
      · rfl
      · split <;> rfl
    · rw [logToSplunk_eq, hm]
      simp only [hok, if_true]
      split
      · rfl
      · split <;> rfl
  · intro r hr
    rw [logToSplunk_eq, hm] at hr
    simp only [] at hr
    split at hr
    · split at hr
      · rw [List.mem_singleton] at hr
        rw [hr]
        rfl
      · split at hr <;>
        · rw [List.mem_singleton] at hr
          rw [hr]
          rfl
    · simp [Effects.nothing] at hr
  · have e1 := length_beq_zero lm.StackTrace
    have e3 := length_beq_zero lm.LogLevelDescription
    have e2 : (lm.LogLevel == 0) = true ↔ lm.LogLevel = 0 := beq_iff_eq
    by_cases h1 : lm.StackTrace = "" <;> by_cases h2 : lm.LogLevel = 0 <;>
      by_cases h3 : lm.LogLevelDescription = "" <;>
      simp [Json.keys, omitempty, e1, e2, e3, h1, h2, h3]

/-- Witness of C4: for `sampleRecord` the send step of `sampleLogger` builds one
request; its body is the envelope with the single field `event`, whose five
fields are all present. -/
theorem envelope_shape_witness :
    (collector 200 "ok").timeMarshalJSON sampleRecord.EventTime = some "2024-01-01T00:00:00Z"
    ∧ (collector 200 "ok").requestOk "POST"
        (Sprintf "%s:%d/services/collector/event"
          [Arg.s sampleLogger.splunkEndpoint, Arg.d sampleLogger.splunkPort]) = true
    ∧ ∃ event : List (String × Json), ∃ r : Request,
      (logToSplunk (collector 200 "ok") sampleLogger sampleRecord).built = [r]
      ∧ (logToSplunk (collector 200 "ok") sampleLogger sampleRecord).sent = [r]
      ∧ r.Body = Json.obj [("event", Json.obj event)]
      ∧ r.Body = sampleBody
      ∧ (Json.obj event).keys
        = ["message", "stack_trace", "log_level", "log_level_description", "event_time"] := by
  refine ⟨rfl, rfl, ?_⟩
  obtain ⟨event, _, _, hbuilt, _⟩ :=
    envelope_shape (collector 200 "ok") sampleLogger sampleRecord "2024-01-01T00:00:00Z" rfl
  obtain ⟨r, hb, hs, hbody⟩ := hbuilt rfl
  have hb2 : (logToSplunk (collector 200 "ok") sampleLogger sampleRecord).built
      = [sampleRequest] := rfl
  have hr : r = sampleRequest := by
    rw [hb2] at hb
    exact (List.cons.inj hb).1.symm
  have hbody2 : r.Body = sampleBody := by
    rw [hr]
    rfl
  refine ⟨event, r, hb, hs, hbody, hbody2, ?_⟩
  rw [hbody2] at hbody
  simp only [sampleBody, Json.obj.injEq, List.cons.injEq, Prod.mk.injEq,
    true_and, and_true] at hbody
  rw [← hbody]
  rfl

/-- C5: for every non-nil error, `LogError` and `LogFatal` build a record whose
message is the text of `Error()` and whose stack trace is the text rendered by
the stack capture for that error, both as they are. -/
theorem error_record_message_and_trace (env : Env) (sp : SplunkLogger) (e : GoError) :
    (∃ lm fx, LogError env sp (some e) = Except.ok (lm, fx)
      ∧ lm.Message = e.Error ∧ lm.StackTrace = env.stackSprint e)
    ∧ (∃ lm fx, LogFatal env sp (some e) = Except.ok (lm, fx)
      ∧ lm.Message = e.Error ∧ lm.StackTrace = env.stackSprint e) :=
  ⟨⟨_, _, rfl, rfl, rfl⟩, ⟨_, _, rfl, rfl, rfl⟩⟩

/-- C6: when `logToSplunk` receives a response, it reads the body and prints it
(followed by a newline) exactly when the status code is below 200 or at least
299, and reads and prints nothing exactly when the status code is in the
interval from 200 (included) to 299 (excluded); for status 500 and body
`server error` the output is `server error` and a newline. -/
theorem response_printed_iff_outside_200_299 (env : Env) (sp : SplunkLogger) (lm : LogMessage)
    (resp : Response) (h : resp ∈ (logToSplunk env sp lm).responses) :
    (((logToSplunk env sp lm).reads = [resp.Body]
        ∧ (logToSplunk env sp lm).stdout = [resp.Body ++ "\n"])
      ↔ (resp.StatusCode < 200 ∨ resp.StatusCode ≥ 299))
    ∧ (((logToSplunk env sp lm).reads = [] ∧ (logToSplunk env sp lm).stdout = [])
      ↔ (200 ≤ resp.StatusCode ∧ resp.StatusCode < 299))
    ∧ (resp.StatusCode = 500 → resp.Body = "server error" →
        (logToSplunk env sp lm).stdout = ["server error\n"]) := by
  rw [logToSplunk_eq] at h ⊢
  cases hm : jsonMarshal env { Event := lm } with
  | none =>
    rw [hm] at h
    simp [Effects.nothing] at h
  | some payloadJson =>
    rw [hm] at h
    simp only [] at h ⊢
    by_cases hok : env.requestOk "POST"
        (sp.splunkEndpoint ++ ":" ++ fmtInt sp.splunkPort ++ "/services/collector/event") = true
    · simp only [hok, if_true] at h ⊢
      cases hdo : env.Do (finalRequest sp payloadJson) with
      | none =>
        rw [hdo] at h
        simp at h
      | some response =>
        rw [hdo] at h
        simp only [] at h ⊢
        by_cases hcode : response.StatusCode < 200 ∨ response.StatusCode ≥ 299
        · rw [if_pos hcode] at h ⊢
          have hresp : resp = response := List.mem_singleton.mp h
          subst hresp
          refine ⟨?_, ?_, ?_⟩
          · exact ⟨fun _ => hcode, fun _ => ⟨rfl, rfl⟩⟩
          · constructor
            · intro hh
              exact absurd hh.1 (List.cons_ne_nil _ _)
            · intro hh
              omega
          · intro _ hb
            rw [hb]
            rfl
        · rw [if_neg hcode] at h ⊢
          have hresp : resp = response := List.mem_singleton.mp h
          subst hresp
          refine ⟨?_, ?_, ?_⟩
          · constructor
            · intro hh
              exact absurd hh.1.symm (List.cons_ne_nil _ _)
            · intro hh
              exact absurd hh hcode
          · constructor
            · intro _
              omega
            · intro _
              exact ⟨rfl, rfl⟩
          · intro h500
            omega
    · simp only [hok] at h
      simp [Effects.nothing] at h

/-- Witness of C6: a collector that answers 500 with body `server error`. -/
theorem response_printed_iff_outside_200_299_witness :
    ({ StatusCode := 500, Body := "server error" } : Response)
        ∈ (logToSplunk (collector 500 "server error") sampleLogger sampleRecord).responses
    ∧ (logToSplunk (collector 500 "server error") sampleLogger sampleRecord).stdout
        = ["server error\n"] :=
  ⟨List.mem_singleton.mpr rfl,
    (response_printed_iff_outside_200_299 (collector 500 "server error") sampleLogger sampleRecord
      { StatusCode := 500, Body := "server error" } (List.mem_singleton.mpr rfl)).2.2 rfl rfl⟩

/-- C7, evaluated at status 299: the collector answers 299 (a 2xx status) with
body `x`, and `logToSplunk` reads the body and prints it. -/
theorem status_299_is_printed :
    (logToSplunk (collector 299 "x") sampleLogger sampleRecord).responses.map Response.StatusCode
        = [299]
    ∧ (logToSplunk (collector 299 "x") sampleLogger sampleRecord).reads = ["x"]
    ∧ (logToSplunk (collector 299 "x") sampleLogger sampleRecord).stdout = ["x\n"] :=
  ⟨rfl, rfl, rfl⟩

/-- C8 as stated fails: for an endpoint that ends in a newline the URL has a
control byte, `http.NewRequest` rejects it, and `LogDebug` hands no request to
the HTTP client. -/
theorem no_post_when_request_rejected :
    (LogDebug (collector 200 "ok") (NewSplunkLogger "secret" "http://splunk.local\n" 8088)
        "m" "f.go" 42).2.sent = []
    ∧ ¬ ((LogDebug (collector 200 "ok") (NewSplunkLogger "secret" "http://splunk.local\n" 8088)
        "m" "f.go" 42).2.sent.length = 1) :=
  ⟨rfl, by decide⟩

/-- C8, amended: `LogDebug`, `LogInformation` and `LogWarning` on every input,
and `LogError` and `LogFatal` on every non-nil error, build one record and hand
it to the send step once; the send step hands to the HTTP client one `POST`
request when the envelope serialises and `http.NewRequest` accepts the URL,
and none otherwise. -/
theorem one_record_at_most_one_post (env : Env) (sp : SplunkLogger)
    (message source_filename : String) (lineNo : Int) (e : GoError) :
    (∃ lm, LogDebug env sp message source_filename lineNo = (lm, logToSplunk env sp lm))
    ∧ (∃ lm, LogInformation env sp message source_filename lineNo = (lm, logToSplunk env sp lm))
    ∧ (∃ lm, LogWarning env sp message source_filename lineNo = (lm, logToSplunk env sp lm))
    ∧ (∃ lm, LogError env sp (some e) = Except.ok (lm, logToSplunk env sp lm))
    ∧ (∃ lm, LogFatal env sp (some e) = Except.ok (lm, logToSplunk env sp lm))
    ∧ (∀ lm : LogMessage,
        (logToSplunk env sp lm).sent.map Request.Method =
          if (jsonMarshal env { Event := lm }).isSome
              && env.requestOk "POST"
                (sp.splunkEndpoint ++ ":" ++ fmtInt sp.splunkPort ++ "/services/collector/event")
          then ["POST"] else []) := by
  refine ⟨⟨_, rfl⟩, ⟨_, rfl⟩, ⟨_, rfl⟩, ⟨_, rfl⟩, ⟨_, rfl⟩, ?_⟩
  intro lm
  rw [logToSplunk_eq]
  cases jsonMarshal env { Event := lm } with
  | none => rfl
  | some payloadJson =>
    by_cases hok : env.requestOk "POST"
        (sp.splunkEndpoint ++ ":" ++ fmtInt sp.splunkPort ++ "/services/collector/event") = true
    · simp only [hok, if_true, Option.isSome_some, Bool.and_self]
      split
      · rfl
      · split <;> rfl
    · simp only [hok]
      rfl

/-- C9: in `logToSplunk`, when serialising the envelope fails, no request is
built or sent and nothing is printed; when `http.NewRequest` fails, no request
is sent and nothing is printed; when `client.Do` fails, no response is received
and nothing is printed. -/
theorem failures_are_silent (env : Env) (sp : SplunkLogger) (lm : LogMessage) :
    (jsonMarshal env { Event := lm } = none →
      (logToSplunk env sp lm).built = [] ∧ (logToSplunk env sp lm).sent = []
      ∧ (logToSplunk env sp lm).stdout = [])
    ∧ (∀ payloadJson, jsonMarshal env { Event := lm } = some payloadJson →
      NewRequest env "POST"
        (Sprintf "%s:%d/services/collector/event" [Arg.s sp.splunkEndpoint, Arg.d sp.splunkPort])
        payloadJson = none →
      (logToSplunk env sp lm).built = [] ∧ (logToSplunk env sp lm).sent = []
      ∧ (logToSplunk env sp lm).stdout = [])
    ∧ (∀ r ∈ (logToSplunk env sp lm).sent, env.Do r = none →
      (logToSplunk env sp lm).responses = [] ∧ (logToSplunk env sp lm).reads = []
      ∧ (logToSplunk env sp lm).stdout = []) := by
  refine ⟨?_, ?_, ?_⟩
  · intro hm
    unfold logToSplunk
    simp only [hm]
    exact ⟨rfl, rfl, rfl⟩
  · intro payloadJson hm hreq
    unfold logToSplunk
    simp only [hm, hreq]
    exact ⟨rfl, rfl, rfl⟩
  · intro r hr hdo
    rw [logToSplunk_eq] at hr ⊢
    cases hm : jsonMarshal env { Event := lm } with
    | none => exact ⟨rfl, rfl, rfl⟩
    | some payloadJson =>
      rw [hm] at hr
      simp only [] at hr ⊢
      by_cases hok : env.requestOk "POST"
          (sp.splunkEndpoint ++ ":" ++ fmtInt sp.splunkPort ++ "/services/collector/event") = true
      · simp only [hok, if_true] at hr ⊢
        cases hsome : env.Do (finalRequest sp payloadJson) with
        | none => exact ⟨rfl, rfl, rfl⟩
        | some response =>
          rw [hsome] at hr
          have hreq : r = finalRequest sp payloadJson := by
            simp only [] at hr
            split at hr <;> exact List.mem_singleton.mp hr
          rw [hreq, hsome] at hdo
          cases hdo
      · simp only [hok] at hr
        simp [Effects.nothing] at hr

/-- Witness of C9: a time that does not marshal, an endpoint that makes the URL
invalid, and a collector that cannot be reached; nothing is printed in any of
the three. -/
theorem failures_are_silent_witness :
    (jsonMarshal badClock { Event := sampleRecord } = none
      ∧ (logToSplunk badClock sampleLogger sampleRecord).built = []
      ∧ (logToSplunk badClock sampleLogger sampleRecord).sent = []
      ∧ (logToSplunk badClock sampleLogger sampleRecord).stdout = [])
    ∧ (NewRequest (collector 500 "no") "POST" "http://splunk.local\n:8088/services/collector/event"
          sampleBody = none
      ∧ (logToSplunk (collector 500 "no") (NewSplunkLogger "secret" "http://splunk.local\n" 8088)
          sampleRecord).sent = []
      ∧ (logToSplunk (collector 500 "no") (NewSplunkLogger "secret" "http://splunk.local\n" 8088)
          sampleRecord).stdout = [])
    ∧ (offline.Do sampleRequest = none
      ∧ sampleRequest ∈ (logToSplunk offline sampleLogger sampleRecord).sent
      ∧ (logToSplunk offline sampleLogger sampleRecord).stdout = []) :=
  ⟨⟨rfl, (failures_are_silent badClock sampleLogger sampleRecord).1 rfl⟩,
    ⟨rfl,
      ((failures_are_silent (collector 500 "no")
        (NewSplunkLogger "secret" "http://splunk.local\n" 8088) sampleRecord).2.1
          sampleBody rfl rfl).2⟩,
    ⟨rfl, List.mem_singleton.mpr rfl,
      ((failures_are_silent offline sampleLogger sampleRecord).2.2
        sampleRequest (List.mem_singleton.mpr rfl) rfl).2.2⟩⟩

/-- C10, evaluated at the nil error: `LogError` and `LogFatal` panic, for every
emitter. -/
theorem nil_error_panics (env : Env) (sp : SplunkLogger) :
    LogError env sp none = Except.error Panic.nilDereference
    ∧ LogFatal env sp none = Except.error Panic.nilDereference :=
  ⟨rfl, rfl⟩

end Splunklogger
